import Mathlib

/-
Shallow embedding of the code-operated lock controller from `state.py`.

The Python program implements the State pattern: a `Lock` context holds the
primary code, the supercode, the current `LockState` object and the
failed-attempt counter; `enter_code` classifies an input string against the
two secrets and delegates to the active state.  Here the mutable object is
embedded as a record, each mutating method becomes a function returning the
updated record, and exception-raising paths return `Except`.
-/

set_option autoImplicit false

namespace DigitalLock

/-- Result of comparing an entered code to the two secrets
(Python enum `Status`: CORRECTCODE / SUPERCODE / WRONGCODE). -/
inductive Status where
  | correctcode
  | supercode
  | wrongcode
  deriving DecidableEq, Repr

/-- Tag of the active `LockState` object: `LockedState`, `UnlockedState`
or `ErrorState`.  The state objects carry no data of their own, only a
back-reference to the lock, so a tag is a faithful embedding. -/
inductive StateTag where
  | locked
  | unlocked
  | error
  deriving DecidableEq, Repr

/-- The two exception kinds `Lock.__init__` and `Lock.enter_code` can raise
for string arguments.  `TypeError` for non-string arguments is enforced
here by the type of the argument and needs no constructor. -/
inductive PyError where
  | valueError
  deriving DecidableEq, Repr

/-- The `Lock` context: the two secrets, the active state and the
failed-attempt counter (`Lock.__code`, `Lock.__supercode`, `Lock.__state`,
`Lock.__failed_attempts`). -/
structure Lock where
  code : String
  supercode : String
  state : StateTag
  failed_attempts : Nat
  deriving DecidableEq, Repr

/-- Python class attribute `Lock._max_failed_attempts = 3`. -/
def max_failed_attempts : Nat := 3

/-- Python truth test `not code.strip()`: true exactly when every character
of the string is whitespace (in particular for the empty string). -/
def py_is_blank (s : String) : Bool :=
  s.data.all Char.isWhitespace

/-- `Lock._validate_code`: `code.isdigit() and 8 <= len(code) < 13`.
Python `isdigit()` is false on the empty string; here the length bound
already rules the empty string out, so `List.all` over the characters
is equivalent. -/
def validate_code (code : String) : Bool :=
  code.data.all Char.isDigit && decide (8 ≤ code.data.length) && decide (code.data.length < 13)

/-- `Lock.__init__(code, supercode, state)`: validates both secrets,
requires them distinct, and starts the counter at 0.  The `TypeError`
branches for non-string arguments are enforced by the types. -/
def Lock.init (code : String) ( supercode : String) (state : StateTag) :
    Except PyError Lock :=
  if validate_code code = false then Except.error PyError.valueError
  else if validate_code supercode = false then Except.error PyError.valueError
  else if code = supercode then Except.error PyError.valueError
  else Except.ok { code := code, supercode := supercode, state := state, failed_attempts := 0 }

/-- `Lock._check_status`: exact string equality, primary checked before
supercode. -/
def Lock.check_status (l : Lock) (code : String) : Status :=
  if l.code = code then Status.correctcode
  else if l.supercode = code then Status.supercode
  else Status.wrongcode

/-- `Lock.increase_failed_attempts`. -/
def Lock.increase_failed_attempts (l : Lock) : Lock :=
  { l with failed_attempts := l.failed_attempts + 1 }

/-- `Lock.reset_failed_attempts`. -/
def Lock.reset_failed_attempts (l : Lock) : Lock :=
  { l with failed_attempts := 0 }

/-- `Lock.is_limit_exceeded`: `failed_attempts >= _max_failed_attempts`. -/
def Lock.is_limit_exceeded (l : Lock) : Bool :=
  decide (max_failed_attempts ≤ l.failed_attempts)

/-- `LockedState.on_code_entered`: correct code unlocks and resets the
counter; any other status increments the counter and forces `ErrorState`
once the limit is reached. -/
def LockedState.on_code_entered (l : Lock) (status : Status) : Lock :=
  if status = Status.correctcode then
    { l.reset_failed_attempts with state := StateTag.unlocked }
  else
    let l2 := l.increase_failed_attempts
    if l2.is_limit_exceeded then { l2 with state := StateTag.error } else l2

/-- `UnlockedState.on_code_entered`: correct code locks again; anything
else leaves the lock unchanged. -/
def UnlockedState.on_code_entered (l : Lock) (status : Status) : Lock :=
  if status = Status.correctcode then { l with state := StateTag.locked } else l

/-- `ErrorState.on_code_entered`: only the supercode recovers, resetting
the counter and returning to `LockedState`; anything else leaves the lock
unchanged. -/
def ErrorState.on_code_entered (l : Lock) (status : Status) : Lock :=
  if status = Status.supercode then
    { l.reset_failed_attempts with state := StateTag.locked }
  else l

/-- Dynamic dispatch `self.__state.on_code_entered(status)`. -/
def Lock.on_code_entered (l : Lock) (status : Status) : Lock :=
  match l.state with
  | StateTag.locked => LockedState.on_code_entered l status
  | StateTag.unlocked => UnlockedState.on_code_entered l status
  | StateTag.error => ErrorState.on_code_entered l status

/-- `Lock.enter_code`: raises `ValueError` when `not code.strip()` (empty
or whitespace-only input), otherwise classifies the code and delegates to
the active state.  `TypeError` for non-strings is enforced by the type. -/
def Lock.enter_code (l : Lock) (code : String) : Except PyError Lock :=
  if py_is_blank code then Except.error PyError.valueError
  else Except.ok (l.on_code_entered (l.check_status code))

/-- One `enter_code` call viewed as a total step on the lock object: a
raising call mutates nothing in Python, so on `Except.error` the lock is
kept unchanged. -/
def Lock.try_enter (l : Lock) (c : String) : Lock :=
  match l.enter_code c with
  | Except.ok l2 => l2
  | Except.error _ => l

/-- Repeated `enter_code` calls on the same lock object. -/
def Lock.run (l : Lock) (codes : List String) : Lock :=
  match codes with
  | [] => l
  | c :: rest => (l.try_enter c).run rest

/-- Invariant tying the counter to the state, preserved by every
`enter_code` call from every validly constructed lock. -/
def Lock.inv (l : Lock) : Prop :=
  (l.state = StateTag.locked → l.failed_attempts < max_failed_attempts) ∧
  (l.state = StateTag.unlocked → l.failed_attempts = 0)

/-- The lock of the worked example: secrets "12345678" / "87654321",
initial state `Locked`, counter 0. -/
def demoLock : Lock :=
  { code := "12345678", supercode := "87654321", state := StateTag.locked,
    failed_attempts := 0 }

/-- The example lock already driven into the Error state, counter at the
limit. -/
def errLock : Lock :=
  { demoLock with state := StateTag.error, failed_attempts := 3 }

/-- The example lock in the Unlocked state. -/
def unlLock : Lock :=
  { demoLock with state := StateTag.unlocked }

/-- A decimal digit character is never whitespace. -/
theorem digit_not_whitespace (c : Char) (h : c.isDigit = true) :
    c.isWhitespace = false := by
  by_contra hw
  rw [Bool.not_eq_false] at hw
  simp only [Char.isWhitespace, Bool.or_eq_true, decide_eq_true_eq] at hw
  rcases hw with ((h1 | h1) | h1) | h1 <;> subst h1 <;> exact absurd h (by decide)

/-- A code accepted by `_validate_code` is not empty or whitespace-only,
so it passes the `not code.strip()` guard of `enter_code`. -/
theorem validate_not_blank (s : String) (h : validate_code s = true) :
    py_is_blank s = false := by
  unfold validate_code at h
  simp only [Bool.and_eq_true, decide_eq_true_eq] at h
  obtain ⟨⟨hdig, hlen⟩, -⟩ := h
  unfold py_is_blank
  cases hs : s.data with
  | nil => rw [hs] at hlen; simp at hlen
  | cons c cs =>
    rw [hs] at hdig
    simp only [List.all_cons, Bool.and_eq_true] at hdig
    simp [List.all_cons, digit_not_whitespace c hdig.1]

/-- Elimination for a successful construction: the produced lock carries
the two secrets, the requested initial state and counter 0, and the
validation facts hold. -/
theorem init_ok_elim (code su : String) (st : StateTag) (l : Lock)
    (h : Lock.init code su st = Except.ok l) :
    l = { code := code, supercode := su, state := st, failed_attempts := 0 } ∧
      validate_code code = true ∧ validate_code su = true ∧ code ≠ su := by
  unfold Lock.init at h
  by_cases h1 : validate_code code = false
  · rw [if_pos h1] at h
    exact absurd h (by simp)
  · rw [if_neg h1] at h
    by_cases h2 : validate_code su = false
    · rw [if_pos h2] at h
      exact absurd h (by simp)
    · rw [if_neg h2] at h
      by_cases h3 : code = su
      · rw [if_pos h3] at h
        exact absurd h (by simp)
      · rw [if_neg h3] at h
        rw [Except.ok.injEq] at h
        exact ⟨h.symm, by rwa [Bool.not_eq_false] at h1,
          by rwa [Bool.not_eq_false] at h2, h3⟩

/-- `_check_status` classifies a code matching neither secret as Wrong. -/
theorem check_status_wrong (l : Lock) (c : String)
    (h1 : c ≠ l.code) (h2 : c ≠ l.supercode) :
    l.check_status c = Status.wrongcode := by
  unfold Lock.check_status
  rw [if_neg (Ne.symm h1), if_neg (Ne.symm h2)]

/-- `_check_status` classifies the primary code as Correct. -/
theorem check_status_correct (l : Lock) (c : String) (h : c = l.code) :
    l.check_status c = Status.correctcode := by
  unfold Lock.check_status
  rw [if_pos h.symm]

/-- `_check_status` classifies the supercode as Super when it differs from
the primary code. -/
theorem check_status_super (l : Lock) (hne : l.code ≠ l.supercode) :
    l.check_status l.supercode = Status.supercode := by
  unfold Lock.check_status
  rw [if_neg hne, if_pos rfl]

/-- `enter_code` on a blank input raises `ValueError` before touching any
state. -/
theorem enter_code_blank (l : Lock) (c : String) (h : py_is_blank c = true) :
    l.enter_code c = Except.error PyError.valueError := by
  unfold Lock.enter_code
  rw [h]
  rfl

/-- `enter_code` on a non-blank input classifies it and delegates to the
active state. -/
theorem enter_code_not_blank (l : Lock) (c : String) (h : py_is_blank c = false) :
    l.enter_code c = Except.ok (l.on_code_entered (l.check_status c)) := by
  unfold Lock.enter_code
  rw [h]
  rfl

/-- In `LockedState`, every non-Correct classification increments the
counter and moves to `ErrorState` exactly when the limit is reached. -/
theorem locked_not_correct (l : Lock) (status : Status)
    (h : status ≠ Status.correctcode) :
    LockedState.on_code_entered l status =
      if max_failed_attempts ≤ l.failed_attempts + 1 then
        { l with failed_attempts := l.failed_attempts + 1, state := StateTag.error }
      else { l with failed_attempts := l.failed_attempts + 1 } := by
  unfold LockedState.on_code_entered Lock.increase_failed_attempts Lock.is_limit_exceeded
  rw [if_neg h]
  split_ifs <;> simp_all

/-- Full description of an `enter_code` call in the Locked state on a
non-blank code matching neither secret. -/
theorem enter_code_locked_wrong (l : Lock) (c : String)
    (hst : l.state = StateTag.locked) (hb : py_is_blank c = false)
    (h1 : c ≠ l.code) (h2 : c ≠ l.supercode) :
    l.enter_code c =
      Except.ok (if max_failed_attempts ≤ l.failed_attempts + 1 then
          { l with failed_attempts := l.failed_attempts + 1, state := StateTag.error }
        else { l with failed_attempts := l.failed_attempts + 1 }) := by
  rw [enter_code_not_blank l c hb, check_status_wrong l c h1 h2]
  unfold Lock.on_code_entered
  rw [hst]
  rw [locked_not_correct l Status.wrongcode (by simp), hst]

/-- The state/counter invariant is preserved by every dispatch of
`on_code_entered`, whatever the classification. -/
theorem inv_on_code_entered (l : Lock) (status : Status) (h : l.inv) :
    (l.on_code_entered status).inv := by
  obtain ⟨co, su, st, fa⟩ := l
  obtain ⟨h1, h2⟩ := h
  simp only [Lock.inv] at h1 h2 ⊢
  cases st <;> cases status <;>
    simp_all [Lock.on_code_entered, LockedState.on_code_entered,
      UnlockedState.on_code_entered, ErrorState.on_code_entered,
      Lock.increase_failed_attempts, Lock.reset_failed_attempts,
      Lock.is_limit_exceeded, max_failed_attempts] <;>
    split_ifs <;> simp_all <;> omega

/-- The state/counter invariant is preserved by one `enter_code` call. -/
theorem inv_try_enter (l : Lock) (c : String) (h : l.inv) :
    (l.try_enter c).inv := by
  unfold Lock.try_enter
  by_cases hb : py_is_blank c
  · rw [enter_code_blank l c hb]
    exact h
  · rw [enter_code_not_blank l c (Bool.not_eq_true _ ▸ hb)]
    exact inv_on_code_entered l _ h

/-- The state/counter invariant is preserved by any sequence of
`enter_code` calls. -/
theorem inv_run (l : Lock) (codes : List String) (h : l.inv) :
    (l.run codes).inv := by
  induction codes generalizing l with
  | nil => exact h
  | cons c cs ih => exact ih _ (inv_try_enter l c h)

/-- A freshly constructed lock satisfies the state/counter invariant. -/
theorem inv_init (code su : String) (st : StateTag) (l : Lock)
    (h : Lock.init code su st = Except.ok l) : l.inv := by
  obtain ⟨hl, -, -, -⟩ := init_ok_elim code su st l h
  subst hl
  constructor
  · intro
    simp [max_failed_attempts]
  · intro
    rfl

/-- `_check_status` never returns Super for a code differing from the
supercode. -/
theorem check_status_ne_super (l : Lock) (c : String) (h : c ≠ l.supercode) :
    l.check_status c ≠ Status.supercode := by
  unfold Lock.check_status
  split_ifs <;> simp_all

/-- `_check_status` never returns Correct for a code differing from the
primary code. -/
theorem check_status_ne_correct (l : Lock) (c : String) (h : c ≠ l.code) :
    l.check_status c ≠ Status.correctcode := by
  unfold Lock.check_status
  split_ifs <;> simp_all

/-- Claim C1, counterexample: the code string "abc" does not match
`^[0-9]{8,12}$`, yet `enter_code` on a freshly constructed lock does not
fail — it returns normally and the failed-attempt counter moves from 0
to 1, so the malformed entry IS counted as a wrong guess. -/
theorem C1_counterexample :
    validate_code "abc" = false ∧
    Lock.init "12345678" "87654321" StateTag.locked = Except.ok demoLock ∧
    demoLock.enter_code "abc" = Except.ok { demoLock with failed_attempts := 1 } ∧
    ({ demoLock with failed_attempts := 1 } : Lock).failed_attempts ≠
      demoLock.failed_attempts :=
  ⟨by decide, by rfl, by rfl, by decide⟩

/-- Claim C1 as amended: `enter_code` rejects (with `ValueError`, mutating
nothing) exactly the blank inputs — empty or whitespace-only strings; a
non-blank code failing `^[0-9]{8,12}$` is NOT rejected: it is classified
against the secrets like any other code, and in the Locked state one
matching neither secret increments the failed-attempt counter, forcing
Error at the limit. -/
theorem C1_amended_no_format_check (l : Lock) (c : String) :
    (py_is_blank c = true → l.enter_code c = Except.error PyError.valueError) ∧
    (py_is_blank c = false → validate_code c = false →
      c ≠ l.code → c ≠ l.supercode → l.state = StateTag.locked →
      l.enter_code c =
        Except.ok (if max_failed_attempts ≤ l.failed_attempts + 1 then
            { l with failed_attempts := l.failed_attempts + 1, state := StateTag.error }
          else { l with failed_attempts := l.failed_attempts + 1 })) := by
  constructor
  · intro hb
    exact enter_code_blank l c hb
  · intro hb _ h1 h2 hst
    exact enter_code_locked_wrong l c hst hb h1 h2

/-- Claim C1 amended, witness at concrete inputs: blank input " " raises,
non-blank malformed input "abc" is counted as a wrong guess. -/
theorem C1_amended_witness :
    demoLock.enter_code " " = Except.error PyError.valueError ∧
    demoLock.enter_code "abc" = Except.ok { demoLock with failed_attempts := 1 } := by
  refine ⟨(C1_amended_no_format_check demoLock " ").1 (by decide), ?_⟩
  have h := (C1_amended_no_format_check demoLock "abc").2 (by decide) (by decide)
    (by decide) (by decide) rfl
  simpa using h

/-- Claim C3: construction fails (with the `ValueError` that the spec
calls `InvalidSecret`) exactly when one of the secrets fails format
validation or the two secrets coincide; in every such case no lock value
is produced. -/
theorem C3_construction_validation (code su : String) (st : StateTag) :
    Lock.init code su st = Except.error PyError.valueError ↔
      (validate_code code = false ∨ validate_code su = false ∨ code = su) := by
  unfold Lock.init
  split_ifs with h1 h2 h3 <;> simp_all

/-- Claim C3, witness: equal secrets are rejected, distinct valid secrets
are accepted. -/
theorem C3_witness :
    Lock.init "12345678" "12345678" StateTag.locked = Except.error PyError.valueError :=
  (C3_construction_validation "12345678" "12345678" StateTag.locked).mpr
    (Or.inr (Or.inr rfl))

/-- Claim C7: on a lock constructed in the Locked state, the counter
starts at 0 and a single `enter_code` call with the primary code moves
the state to Unlocked with the counter (still reset) at 0. -/
theorem C7_primary_unlocks (code su : String) (l : Lock)
    (hinit : Lock.init code su StateTag.locked = Except.ok l) :
    l.failed_attempts = 0 ∧
    l.enter_code code = Except.ok { l with state := StateTag.unlocked } ∧
    ({ l with state := StateTag.unlocked } : Lock).failed_attempts = 0 := by
  obtain ⟨hl, hvc, -, -⟩ := init_ok_elim code su StateTag.locked l hinit
  subst hl
  refine ⟨rfl, ?_, rfl⟩
  rw [enter_code_not_blank _ code (validate_not_blank code hvc),
    check_status_correct _ code rfl]
  rfl

/-- Claim C7, witness on the example lock. -/
theorem C7_witness :
    demoLock.failed_attempts = 0 ∧
    demoLock.enter_code "12345678" =
      Except.ok { demoLock with state := StateTag.unlocked } ∧
    ({ demoLock with state := StateTag.unlocked } : Lock).failed_attempts = 0 :=
  C7_primary_unlocks "12345678" "87654321" demoLock (by rfl)

/-- Claim C2: from the Locked state with counter 0, three valid-format
codes matching neither secret drive the lock through Locked (counter 1),
Locked (counter 2), Error (counter 3 = the maximum), and the transition
to Error is produced by the third call itself. -/
theorem C2_three_wrong_codes_lockout (l : Lock) (c1 c2 c3 : String)
    (hst : l.state = StateTag.locked) (hfa : l.failed_attempts = 0)
    (h1v : validate_code c1 = true) (h1c : c1 ≠ l.code) (h1s : c1 ≠ l.supercode)
    (h2v : validate_code c2 = true) (h2c : c2 ≠ l.code) (h2s : c2 ≠ l.supercode)
    (h3v : validate_code c3 = true) (h3c : c3 ≠ l.code) (h3s : c3 ≠ l.supercode) :
    (l.run [c1]).state = StateTag.locked ∧ (l.run [c1]).failed_attempts = 1 ∧
    (l.run [c1, c2]).state = StateTag.locked ∧
    (l.run [c1, c2]).failed_attempts = 2 ∧
    (l.run [c1, c2, c3]).state = StateTag.error ∧
    (l.run [c1, c2, c3]).failed_attempts = max_failed_attempts ∧
    (l.run [c1, c2]).enter_code c3 = Except.ok (l.run [c1, c2, c3]) := by
  obtain ⟨co, su, st, fa⟩ := l
  simp only at hst hfa
  subst hst
  subst hfa
  have e1 : (⟨co, su, StateTag.locked, 0⟩ : Lock).try_enter c1 =
      ⟨co, su, StateTag.locked, 1⟩ := by
    unfold Lock.try_enter
    rw [enter_code_locked_wrong _ c1 rfl (validate_not_blank c1 h1v) h1c h1s]
    norm_num [max_failed_attempts]
  have e2 : (⟨co, su, StateTag.locked, 1⟩ : Lock).try_enter c2 =
      ⟨co, su, StateTag.locked, 2⟩ := by
    unfold Lock.try_enter
    rw [enter_code_locked_wrong ⟨co, su, StateTag.locked, 1⟩ c2 rfl
      (validate_not_blank c2 h2v) h2c h2s]
    norm_num [max_failed_attempts]
  have e3 : (⟨co, su, StateTag.locked, 2⟩ : Lock).enter_code c3 =
      Except.ok ⟨co, su, StateTag.error, 3⟩ := by
    rw [enter_code_locked_wrong ⟨co, su, StateTag.locked, 2⟩ c3 rfl
      (validate_not_blank c3 h3v) h3c h3s]
    norm_num [max_failed_attempts]
  have r1 : (⟨co, su, StateTag.locked, 0⟩ : Lock).run [c1] =
      ⟨co, su, StateTag.locked, 1⟩ := by
    unfold Lock.run
    rw [e1]
    rfl
  have r2 : (⟨co, su, StateTag.locked, 0⟩ : Lock).run [c1, c2] =
      ⟨co, su, StateTag.locked, 2⟩ := by
    unfold Lock.run
    rw [e1]
    unfold Lock.run
    rw [e2]
    rfl
  have r3 : (⟨co, su, StateTag.locked, 0⟩ : Lock).run [c1, c2, c3] =
      ⟨co, su, StateTag.error, 3⟩ := by
    unfold Lock.run
    rw [e1]
    unfold Lock.run
    rw [e2]
    unfold Lock.run
    unfold Lock.try_enter
    rw [e3]
    rfl
  rw [r1, r2, r3, e3]
  exact ⟨rfl, rfl, rfl, rfl, rfl, rfl, rfl⟩

/-- Claim C2, witness: the spec example trace on the example lock. -/
theorem C2_witness :
    (demoLock.run ["00000000"]).state = StateTag.locked ∧
    (demoLock.run ["00000000"]).failed_attempts = 1 ∧
    (demoLock.run ["00000000", "11111111"]).state = StateTag.locked ∧
    (demoLock.run ["00000000", "11111111"]).failed_attempts = 2 ∧
    (demoLock.run ["00000000", "11111111", "22222222"]).state = StateTag.error ∧
    (demoLock.run ["00000000", "11111111", "22222222"]).failed_attempts =
      max_failed_attempts ∧
    (demoLock.run ["00000000", "11111111"]).enter_code "22222222" =
      Except.ok (demoLock.run ["00000000", "11111111", "22222222"]) :=
  C2_three_wrong_codes_lockout demoLock "00000000" "11111111" "22222222"
    rfl rfl (by decide) (by decide) (by decide) (by decide) (by decide)
    (by decide) (by decide) (by decide) (by decide)

/-- Claim C4: in the Locked state the supercode is handled exactly like a
wrong code — the counter goes up by 1, the state moves to Error exactly
at the limit and never to Unlocked, and the call result coincides with
that of any wrong code, whatever the current counter value. -/
theorem C4_supercode_treated_as_wrong (l : Lock) (c : String)
    (hst : l.state = StateTag.locked) (hne : l.code ≠ l.supercode)
    (hsb : py_is_blank l.supercode = false)
    (hcb : py_is_blank c = false) (hc1 : c ≠ l.code) (hc2 : c ≠ l.supercode) :
    l.enter_code l.supercode =
      Except.ok (if max_failed_attempts ≤ l.failed_attempts + 1 then
          { l with failed_attempts := l.failed_attempts + 1, state := StateTag.error }
        else { l with failed_attempts := l.failed_attempts + 1 }) ∧
    l.enter_code l.supercode = l.enter_code c := by
  have hsup : l.enter_code l.supercode =
      Except.ok (if max_failed_attempts ≤ l.failed_attempts + 1 then
          { l with failed_attempts := l.failed_attempts + 1, state := StateTag.error }
        else { l with failed_attempts := l.failed_attempts + 1 }) := by
    rw [enter_code_not_blank l _ hsb, check_status_super l hne]
    unfold Lock.on_code_entered
    rw [hst, locked_not_correct l Status.supercode (by simp), hst]
  exact ⟨hsup, by rw [hsup, enter_code_locked_wrong l c hst hcb hc1 hc2]⟩

/-- Claim C4, witness on the example lock against the wrong code
"00000000". -/
theorem C4_witness :
    demoLock.enter_code demoLock.supercode =
      Except.ok (if max_failed_attempts ≤ demoLock.failed_attempts + 1 then
          { demoLock with failed_attempts := demoLock.failed_attempts + 1, state := StateTag.error }
        else { demoLock with failed_attempts := demoLock.failed_attempts + 1 }) ∧
    demoLock.enter_code demoLock.supercode = demoLock.enter_code "00000000" :=
  C4_supercode_treated_as_wrong demoLock "00000000" rfl (by decide) (by decide)
    (by decide) (by decide) (by decide)

/-- Claim C5: from the Error state the supercode recovers to Locked with
the counter reset to 0, while any sequence of other inputs (the primary
code included) leaves the lock — state and counter — exactly unchanged. -/
theorem C5_error_state_absorbing (l : Lock)
    (hst : l.state = StateTag.error) (hne : l.code ≠ l.supercode)
    (hsb : py_is_blank l.supercode = false) :
    l.enter_code l.supercode =
      Except.ok { l with state := StateTag.locked, failed_attempts := 0 } ∧
    (∀ codes : List String, (∀ c ∈ codes, c ≠ l.supercode) → l.run codes = l) := by
  constructor
  · rw [enter_code_not_blank l _ hsb, check_status_super l hne]
    unfold Lock.on_code_entered
    rw [hst]
    rfl
  · intro codes
    induction codes with
    | nil =>
      intro
      rfl
    | cons c cs ih =>
      intro hall
      have hstep : l.try_enter c = l := by
        unfold Lock.try_enter
        by_cases hb : py_is_blank c = true
        · rw [enter_code_blank l c hb]
        · rw [enter_code_not_blank l c (by simpa using hb)]
          unfold Lock.on_code_entered
          rw [hst]
          unfold ErrorState.on_code_entered
          rw [if_neg (check_status_ne_super l c (hall c (by simp)))]
      show (l.try_enter c).run cs = l
      rw [hstep]
      exact ih (fun x hx => hall x (List.mem_cons_of_mem c hx))

/-- Claim C5, witness: on the lock in the Error state, the supercode
recovers, and the primary code followed by a wrong code change nothing. -/
theorem C5_witness :
    errLock.enter_code errLock.supercode =
      Except.ok { errLock with state := StateTag.locked, failed_attempts := 0 } ∧
    errLock.run ["12345678", "99999999"] = errLock :=
  ⟨(C5_error_state_absorbing errLock rfl (by decide) (by decide)).1,
   (C5_error_state_absorbing errLock rfl (by decide) (by decide)).2
     ["12345678", "99999999"] (by decide)⟩

/-- Claim C8: from the Unlocked state the primary code locks the lock and
any other non-blank code leaves it unlocked; in both cases the call
leaves the failed-attempt counter untouched (the result records keep the
counter field of the input lock). -/
theorem C8_unlocked_transitions (l : Lock) (c : String)
    (hst : l.state = StateTag.unlocked) (hcb : py_is_blank c = false) :
    (c = l.code → l.enter_code c = Except.ok { l with state := StateTag.locked }) ∧
    (c ≠ l.code → l.enter_code c = Except.ok l) := by
  constructor
  · intro hc
    rw [enter_code_not_blank l c hcb, check_status_correct l c hc]
    unfold Lock.on_code_entered
    rw [hst]
    rfl
  · intro hc
    rw [enter_code_not_blank l c hcb]
    unfold Lock.on_code_entered
    rw [hst]
    unfold UnlockedState.on_code_entered
    rw [if_neg (check_status_ne_correct l c hc)]

/-- Claim C8, witness: on the unlocked example lock, the primary code
locks and the supercode leaves everything unchanged. -/
theorem C8_witness :
    unlLock.enter_code "12345678" =
      Except.ok { unlLock with state := StateTag.locked } ∧
    unlLock.enter_code "87654321" = Except.ok unlLock :=
  ⟨(C8_unlocked_transitions unlLock "12345678" rfl (by decide)).1 rfl,
   (C8_unlocked_transitions unlLock "87654321" rfl (by decide)).2 (by decide)⟩

/-- Claim C6: along every sequence of `enter_code` calls from a validly
constructed lock, the Locked state is only ever observed with the counter
strictly below the maximum of 3, and whenever the counter shows the
maximum the state has already moved to Error — Locked with counter 3 is
never observable between calls. -/
theorem C6_locked_counter_invariant (code su : String) (st : StateTag) (l0 : Lock)
    (hinit : Lock.init code su st = Except.ok l0) (codes : List String) :
    ((l0.run codes).state = StateTag.locked →
      (l0.run codes).failed_attempts < max_failed_attempts) ∧
    ((l0.run codes).failed_attempts = max_failed_attempts →
      (l0.run codes).state = StateTag.error) := by
  obtain ⟨h1, h2⟩ := inv_run l0 codes (inv_init code su st l0 hinit)
  refine ⟨h1, ?_⟩
  intro hfa
  cases hs : (l0.run codes).state with
  | locked =>
    have := h1 hs
    omega
  | unlocked =>
    rw [h2 hs] at hfa
    exact absurd hfa (by decide)
  | error => rfl

/-- Claim C6, witness: after two wrong codes on the example lock the
state is Locked and the invariant instance holds. -/
theorem C6_witness :
    ((demoLock.run ["00000000", "11111111"]).state = StateTag.locked →
      (demoLock.run ["00000000", "11111111"]).failed_attempts < max_failed_attempts) ∧
    ((demoLock.run ["00000000", "11111111"]).failed_attempts = max_failed_attempts →
      (demoLock.run ["00000000", "11111111"]).state = StateTag.error) :=
  C6_locked_counter_invariant "12345678" "87654321" StateTag.locked demoLock rfl
    ["00000000", "11111111"]

/-- Claim C9: for string inputs, `enter_code` raises exactly on the empty
or whitespace-only ones, before any mutation; every other string is
classified against the secrets — Wrong when it matches neither, even if
malformed — and driven through the state table, so in the Locked state it
increments the failed-attempt counter by 1. -/
theorem C9_enter_code_error_conditions (l : Lock) (c : String) :
    (l.enter_code c = Except.error PyError.valueError ↔ py_is_blank c = true) ∧
    (c ≠ l.code → c ≠ l.supercode → l.check_status c = Status.wrongcode) ∧
    (py_is_blank c = false → c ≠ l.code → c ≠ l.supercode →
      l.state = StateTag.locked →
      l.enter_code c = Except.ok (l.on_code_entered Status.wrongcode) ∧
      (l.on_code_entered Status.wrongcode).failed_attempts = l.failed_attempts + 1) := by
  refine ⟨⟨?_, enter_code_blank l c⟩, check_status_wrong l c, ?_⟩
  · intro h
    by_contra hb
    rw [Bool.not_eq_true] at hb
    rw [enter_code_not_blank l c hb] at h
    exact absurd h (by simp)
  · intro hb h1 h2 hst
    constructor
    · rw [enter_code_not_blank l c hb, check_status_wrong l c h1 h2]
    · unfold Lock.on_code_entered
      rw [hst, locked_not_correct l Status.wrongcode (by simp)]
      split_ifs <;> rfl

/-- Claim C9, witness: the empty string raises, the malformed non-blank
string "abc" is classified Wrong and counted. -/
theorem C9_witness :
    demoLock.enter_code "" = Except.error PyError.valueError ∧
    demoLock.check_status "abc" = Status.wrongcode ∧
    demoLock.enter_code "abc" = Except.ok (demoLock.on_code_entered Status.wrongcode) ∧
    (demoLock.on_code_entered Status.wrongcode).failed_attempts =
      demoLock.failed_attempts + 1 :=
  ⟨(C9_enter_code_error_conditions demoLock "").1.mpr (by decide),
   (C9_enter_code_error_conditions demoLock "abc").2.1 (by decide) (by decide),
   ((C9_enter_code_error_conditions demoLock "abc").2.2 (by decide) (by decide)
     (by decide) rfl).1,
   ((C9_enter_code_error_conditions demoLock "abc").2.2 (by decide) (by decide)
     (by decide) rfl).2⟩

/-- Claim C10: along every sequence of `enter_code` calls from a validly
constructed lock (whatever the initial state), whenever the state is
Unlocked the failed-attempt counter is 0. -/
theorem C10_unlocked_counter_zero (code su : String) (st : StateTag) (l0 : Lock)
    (hinit : Lock.init code su st = Except.ok l0) (codes : List String) :
    (l0.run codes).state = StateTag.unlocked →
      (l0.run codes).failed_attempts = 0 :=
  (inv_run l0 codes (inv_init code su st l0 hinit)).2

/-- Claim C10, witness: unlocking the example lock with the primary code
leaves the counter at 0. -/
theorem C10_witness :
    (demoLock.run ["12345678"]).failed_attempts = 0 :=
  C10_unlocked_counter_zero "12345678" "87654321" StateTag.locked demoLock rfl
    ["12345678"] (by rfl)

end DigitalLock
